import Mathlib

attribute [local semireducible] Rat.add Rat.sub Rat.mul Rat.inv Rat.ofScientific

/-!
Shallow embedding of `gros/utils/datahandling.py` (class `SpaceTimeData`)
over exact rationals, together with theorems settling the claims about the
trajectory-data subsystem: input validation, the empty-state construction,
in-place spherical-to-Cartesian conversion, sphere-mesh generation, and the
adaptive animation-frame sampling of `_add_rerun_animation_frames`.

Python floats are modelled by `ℚ` (exact arithmetic); numpy arrays by lists;
a raised exception by `Except.error`. `np.pi` is the exact rational value of
the IEEE-754 double `3.141592653589793...` = 884279719003555 / 2^48.
-/

deriving instance DecidableEq for Except

namespace Gros

/-- A model of the trigonometric primitives used by the coordinate converter:
any pair of functions standing for `sin` and `cos`.  Geometric facts that
need the Pythagorean identity take it as an explicit hypothesis. -/
structure Trig where
  sin : ℚ → ℚ
  cos : ℚ → ℚ

/-- Modelled from the spec: `gros/utils/transforms.py` is not under `src/`;
the contract of `CoordinateConverter.sphericalToCartesian` is taken from
spec section 4.1: `x = r·sin(θ)·cos(φ)`, `y = r·sin(θ)·sin(φ)`,
`z = r·cos(θ)`, defined for all finite real arguments. -/
def spherical_to_cartesian (S : Trig) (r theta phi : ℚ) : ℚ × ℚ × ℚ :=
  (r * S.sin theta * S.cos phi, r * S.sin theta * S.sin phi, r * S.cos theta)

/-- Modelled from the spec: the conversion-policy enum of
`gros/utils/transforms.py` (spec section 6: spherical-to-Cartesian | identity). -/
inductive CoordinateConversion where
  | spherical_to_cartesian
  | identity
deriving DecidableEq

/-- The Python value handed to `SpaceTimeData.__init__` as `trajectory`:
either a (2-dimensional, rectangular-or-ragged) numpy array modelled as a
list of rows, or any non-`np.ndarray` object. -/
inductive PyObject where
  | ndarray (rows : List (List ℚ))
  | other
deriving DecidableEq

/-- The two `ValueError`s of `SpaceTimeData.__init__` (lines 28-31), named as
in the spec's error taxonomy (section 7). -/
inductive InitError where
  | invalidType
  | invalidShape
deriving DecidableEq

/-- One row of the wrapped dataframe, with the five named columns of
`DATA_COLUMNS = ["tau", "t", "x", "y", "z"]`.  Before conversion the `x`,
`y`, `z` slots hold the spherical triple `(r, θ, φ)`. -/
structure Row where
  tau : ℚ
  t : ℚ
  x : ℚ
  y : ℚ
  z : ℚ
deriving DecidableEq

/-- Read a length-5 numeric row into its named columns (out-of-range reads
default to 0; every row reaching this point has length 5). -/
def toRow (l : List ℚ) : Row :=
  ⟨l.getD 0 0, l.getD 1 0, l.getD 2 0, l.getD 3 0, l.getD 4 0⟩

/-- Lines 39-46 of `datahandling.py`: overwrite slots 2, 3, 4 of a trajectory
point with `spherical_to_cartesian(r=point[2], theta=point[3], phi=point[4])`. -/
def convert_point (S : Trig) (p : Row) : Row :=
  let c := spherical_to_cartesian S p.x p.y p.z
  { p with x := c.1, y := c.2.1, z := c.2.2 }

/-- `trajectory.any()` (line 36): some entry of the array is nonzero. -/
def any_nonzero (rows : List (List ℚ)) : Bool :=
  rows.any (fun r => r.any (fun v => v != 0))

/-- The `np.ndarray` shape test of line 30, `trajectory.shape != (len(trajectory), 5)`:
a nested-list array has shape `(N, 5)` exactly when every row has length 5
(a ragged input has shape `(N,)` and also fails the test). -/
def shape_ok (rows : List (List ℚ)) : Bool :=
  rows.all (fun r => r.length = 5)

/-- The state of a constructed `SpaceTimeData` object.  `df` is `none` when
the `self.df` attribute was never assigned (the `trajectory.any()` branch of
`__init__` was not taken); accessing it then raises `AttributeError`. -/
structure SpaceTimeData where
  rs : ℚ
  max_num_anim_frames : ℤ
  df : Option (List Row)
deriving DecidableEq

/-- `SpaceTimeData.__init__` (lines 20-46).  Type check, shape check, then —
only when the array has some nonzero entry — the dataframe is stored and the
rows are converted in place.  `pd.DataFrame(trajectory)` wraps the ndarray
without copying, so the in-place conversion loop is reflected in `df`:
the stored rows are the converted ones. -/
def SpaceTimeData.init (S : Trig) (trajectory : PyObject) (rs : ℚ)
    (conversion : CoordinateConversion) : Except InitError SpaceTimeData :=
  match trajectory with
  | PyObject.other => Except.error InitError.invalidType
  | PyObject.ndarray rows =>
    if shape_ok rows then
      if any_nonzero rows then
        Except.ok { rs := rs, max_num_anim_frames := 100,
                    df := some (match conversion with
                      | CoordinateConversion.spherical_to_cartesian =>
                          rows.map (fun l => convert_point S (toRow l))
                      | CoordinateConversion.identity => rows.map toRow) }
      else
        Except.ok { rs := rs, max_num_anim_frames := 100, df := none }
    else
      Except.error InitError.invalidShape

/-- `SpaceTimeData.size` (lines 48-52): `len(self.df.index)`.  Raises
`AttributeError` when `self.df` was never assigned. -/
def SpaceTimeData.size (d : SpaceTimeData) : Except String ℕ :=
  match d.df with
  | none => Except.error "AttributeError: SpaceTimeData object has no attribute df"
  | some rows => Except.ok rows.length

/-- The exact rational value of the IEEE-754 double `np.pi`. -/
def npPi : ℚ := 884279719003555 / 281474976710656

/-- `np.linspace(a, b, n)`: `n` evenly spaced values from `a` to `b`,
endpoints included; value `i` is `a + (b - a) * i / (n - 1)`. -/
def linspace (a b : ℚ) (n : ℕ) : List ℚ :=
  (List.range n).map (fun i => a + (b - a) * i / ((n : ℚ) - 1))

/-- `np.meshgrid(A, B)` with the default xy indexing: returns `(X, Y)` of
shape `(len B, len A)` with `X[i][j] = A[j]` and `Y[i][j] = B[i]`. -/
def meshgrid (A B : List ℚ) : List (List ℚ) × List (List ℚ) :=
  (B.map (fun _ => A), B.map (fun b => A.map (fun _ => b)))

/-- Lines 117-119 of `_log_sphere`, flattened to the list of
`(theta, phi)` argument pairs later fed elementwise to the converter.
`sph_theta, sph_phi = np.meshgrid(sph_phi, sph_theta)` swaps the two
linspace grids: the first (`theta`) argument ranges over `linspace 0 π 16`
and the second (`phi`) argument over `linspace 0 2π 16`. -/
def sphere_angle_pairs : List (ℚ × ℚ) :=
  let sph_theta := linspace 0 (2 * npPi) 16
  let sph_phi := linspace 0 npPi 16
  let m := meshgrid sph_phi sph_theta
  List.zip m.1.flatten m.2.flatten

/-- `_log_sphere` (lines 108-133): the 16×16 point cloud logged for a sphere
of the given radius, `spherical_to_cartesian(radius, sph_theta, sph_phi)`
applied elementwise and flattened. -/
def log_sphere_points (S : Trig) (radius : ℚ) : List (ℚ × ℚ × ℚ) :=
  sphere_angle_pairs.map (fun q => spherical_to_cartesian S radius q.1 q.2)

/-- The visualization payloads handed to the rendering sink by `plot`
(styling attributes — radii, colors, opacity — are opaque and omitted). -/
inductive Primitive where
  | trajectory (points : List (ℚ × ℚ × ℚ))
  | singularity
  | sphere (name : String) (points : List (ℚ × ℚ × ℚ))
  | frame (k : ℤ) (tau t : ℚ) (pos : ℚ × ℚ × ℚ) (dilation diff : ℚ)
deriving DecidableEq

/-- Ascending-step slice of Python `range(start, stop, step)` (`step > 0`):
emit `start` while `start < stop`.  `fuel` bounds the recursion; callers pass
`(stop - start).toNat`, which is sufficient for any `step ≥ 1`. -/
def rangeAux (fuel : ℕ) (start stop step : ℤ) : List ℤ :=
  match fuel with
  | 0 => []
  | Nat.succ f => if start < stop then start :: rangeAux f (start + step) stop step else []

/-- Descending-step slice of Python `range` (`step < 0`): emit `start` while
`start > stop`. -/
def rangeAuxDown (fuel : ℕ) (start stop step : ℤ) : List ℤ :=
  match fuel with
  | 0 => []
  | Nat.succ f => if stop < start then start :: rangeAuxDown f (start + step) stop step else []

/-- Python `range(start, stop, step)` as a list; `step = 0` raises
`ValueError`. -/
def pyRange (start stop step : ℤ) : Except String (List ℤ) :=
  if step = 0 then Except.error "ValueError: range() arg 3 must not be zero"
  else if 0 < step then Except.ok (rangeAux (stop - start).toNat start stop step)
  else Except.ok (rangeAuxDown (start - stop).toNat start stop step)

/-- `data["tau"].max()` over the stored rows. -/
def tauMax (rows : List Row) : ℚ :=
  ((rows.map Row.tau).max?).getD 0

/-- The raw (pre-clamp) index spacing of line 145:
`math.ceil(anim_step_size / data["tau"].max() * self.size())`. -/
def frame_step_size_raw (rows : List Row) (anim_step_size : ℚ) : ℤ :=
  ⌈anim_step_size / tauMax rows * (rows.length : ℚ)⌉

/-- The loop body of lines 155-170: the particle point logged for the sample
at index `k`, tagged with proper time, coordinate time,
`timeDilation = t/τ` when `τ ≠ 0` (else 0), and `Δt = |t − τ|`. -/
def mkFrame (rows : List Row) (k : ℤ) : Primitive :=
  let row := rows.getD k.toNat ⟨0, 0, 0, 0, 0⟩
  let current_tau := row.tau
  let current_t := row.t
  let time_dilation := if current_tau ≠ 0 then current_t / current_tau else 0
  let time_diff := |current_t - current_tau|
  Primitive.frame k current_tau current_t (row.x, row.y, row.z) time_dilation time_diff

/-- `SpaceTimeData._add_rerun_animation_frames` (lines 135-170).  Returns the
warnings logged plus the frame primitives emitted, or the exception raised:
 - `anim_step_size ≤ 0` returns before touching `self.df` (lines 141-142);
 - a missing `self.df` attribute raises `AttributeError` (line 144);
 - `tau.max() == 0` makes `anim_step_size / 0.0` an IEEE `inf` and
   `math.ceil(inf)` raises `OverflowError` (line 145);
 - a step larger than `max_num_anim_frames` is clamped to it and a warning
   is logged (lines 147-152);
 - the loop `for k in range(1, self.size(), frame_step_size)` logs one
   particle point per index, with `timeDilation = t/τ` when `τ ≠ 0` else 0,
   and `Δt = |t − τ|` (lines 155-170). -/
def SpaceTimeData.add_rerun_animation_frames (d : SpaceTimeData) (anim_step_size : ℚ) :
    Except String (List String × List Primitive) :=
  if anim_step_size ≤ 0 then Except.ok ([], [])
  else
    match d.df with
    | none => Except.error "AttributeError: SpaceTimeData object has no attribute df"
    | some rows =>
      if tauMax rows = 0 then
        Except.error "OverflowError: cannot convert float infinity to integer"
      else
        let raw := frame_step_size_raw rows anim_step_size
        let frame_step_size := if raw > d.max_num_anim_frames then d.max_num_anim_frames else raw
        let warnings :=
          if raw > d.max_num_anim_frames then
            ["animation_step_size is too large. Maximum number of animation frames will be limited."]
          else []
        match pyRange 1 (rows.length : ℤ) frame_step_size with
        | Except.error e => Except.error e
        | Except.ok ks => Except.ok (warnings, ks.map (mkFrame rows))

/-- `SpaceTimeData.plot` (lines 54-105): trajectory line strip, singularity
marker, horizon sphere of radius `rs`, optional attractor sphere, optional
animation frames.  `data = self.df` (line 64) raises `AttributeError` on an
empty-state dataset before anything is emitted.  The trailing
spawn/connect-to-sink plumbing (lines 96-105) is external I/O and not part
of the emitted-primitive model. -/
def SpaceTimeData.plot (d : SpaceTimeData) (S : Trig)
    (attractor_radius animation_step_size : ℚ) : Except String (List Primitive) :=
  match d.df with
  | none => Except.error "AttributeError: SpaceTimeData object has no attribute df"
  | some rows =>
    let base := [Primitive.trajectory (rows.map (fun r => (r.x, r.y, r.z))),
                 Primitive.singularity,
                 Primitive.sphere "black_hole" (log_sphere_points S d.rs)]
    let base2 := if 0 < attractor_radius then
        base ++ [Primitive.sphere "attractor" (log_sphere_points S attractor_radius)]
      else base
    if 0 < animation_step_size then
      match d.add_rerun_animation_frames animation_step_size with
      | Except.error e => Except.error e
      | Except.ok wf => Except.ok (base2 ++ wf.2)
    else
      Except.ok base2

/-- Recognize an animation-frame primitive. -/
def Primitive.isFrame : Primitive → Bool
  | Primitive.frame _ _ _ _ _ _ => true
  | _ => false

/-- The sample index carried by an animation-frame primitive. -/
def Primitive.frameIdx : Primitive → ℤ
  | Primitive.frame k _ _ _ _ _ => k
  | _ => 0

/-- The list of sample indices of the animation-frame primitives, in
emission order. -/
def animIndices (ps : List Primitive) : List ℤ :=
  (ps.filter Primitive.isFrame).map Primitive.frameIdx

/-- The number of animation-frame primitives emitted. -/
def countAnimFrames (ps : List Primitive) : ℕ :=
  (ps.filter Primitive.isFrame).length

/-- A concrete trig model (used to instantiate theorems at concrete inputs);
it satisfies the Pythagorean identity. -/
def S0 : Trig := ⟨fun _ => 0, fun _ => 1⟩

/-- An all-zero (2,5) input array (equivalently `np.zeros((2,5))`). -/
def c1_trajectory : List (List ℚ) := [[0, 0, 0, 0, 0], [0, 0, 0, 0, 0]]

/-- A (102,5) input with constant proper time 1: `frame_step_size` computes
to 1 for `animation_step_size = 1/102`, so 101 frames are emitted. -/
def c2_trajectory : List (List ℚ) := List.replicate 102 [1, 1, 0, 0, 0]

/-- A nonzero (2,5) input whose proper-time column is identically 0. -/
def c3_trajectory : List (List ℚ) := [[0, 0, 1, 0, 0], [0, 0, 2, 0, 0]]

/-- A small concrete 3-row dataset state with `tauMax = 2` (used to
instantiate the sampling theorems). -/
def c4rows : List Row := [⟨0, 0, 1, 1, 1⟩, ⟨1, 2, 3, 4, 5⟩, ⟨2, 4, 1, 1, 1⟩]

/-- A dataset wrapping `c4rows` with `rs = 1`. -/
def c4d : SpaceTimeData := ⟨1, 100, some c4rows⟩

/-- A 3-row dataset state whose sampled row (index 1) has `τ = 0`. -/
def c5rows : List Row := [⟨1, 1, 1, 0, 0⟩, ⟨0, 5, 2, 0, 0⟩, ⟨2, 3, 3, 0, 0⟩]

/-- A dataset wrapping `c5rows` with `rs = 1`. -/
def c5d : SpaceTimeData := ⟨1, 100, some c5rows⟩

/-! ### Helper lemmas about the Python `range` model -/

theorem rangeAux_mem {fuel : ℕ} {start stop step x : ℤ} (hs : 0 ≤ step)
    (hx : x ∈ rangeAux fuel start stop step) : start ≤ x ∧ x < stop := by
  induction fuel generalizing start with
  | zero => simp [rangeAux] at hx
  | succ f ih =>
    simp only [rangeAux] at hx
    by_cases h : start < stop
    · rw [if_pos h] at hx
      rcases List.mem_cons.mp hx with rfl | hx2
      · exact ⟨le_refl x, h⟩
      · obtain ⟨h1, h2⟩ := ih hx2
        exact ⟨by omega, h2⟩
    · rw [if_neg h] at hx
      simp at hx

theorem rangeAux_getD {fuel : ℕ} {start stop step : ℤ} (hs : 1 ≤ step)
    (hfuel : (stop - start).toNat ≤ fuel) :
    ∀ j, j < (rangeAux fuel start stop step).length →
      (rangeAux fuel start stop step).getD j 0 = start + j * step := by
  induction fuel generalizing start with
  | zero =>
    intro j hj
    simp [rangeAux] at hj
  | succ f ih =>
    intro j hj
    simp only [rangeAux] at hj ⊢
    by_cases h : start < stop
    · rw [if_pos h] at hj ⊢
      match j with
      | 0 => simp
      | Nat.succ i =>
        simp only [List.length_cons] at hj
        have hj2 : i < (rangeAux f (start + step) stop step).length :=
          Nat.lt_of_succ_lt_succ hj
        have hrec := @ih (start + step) (by omega) i hj2
        simp only [List.getD_cons_succ]
        rw [hrec]
        push_cast
        ring
    · rw [if_neg h] at hj
      simp at hj

theorem rangeAux_complete {fuel : ℕ} {start stop step : ℤ} (hs : 1 ≤ step)
    (hfuel : (stop - start).toNat ≤ fuel) :
    stop ≤ start + ((rangeAux fuel start stop step).length : ℤ) * step := by
  induction fuel generalizing start with
  | zero =>
    rw [rangeAux]
    simp only [List.length_nil, Int.ofNat_zero, Nat.cast_zero, zero_mul, add_zero]
    omega
  | succ f ih =>
    rw [rangeAux]
    by_cases h : start < stop
    · rw [if_pos h]
      have hrec := @ih (start + step) (by omega)
      simp only [List.length_cons]
      push_cast at hrec ⊢
      linarith
    · rw [if_neg h]
      simp only [List.length_nil, Nat.cast_zero, zero_mul, add_zero]
      omega

theorem rangeAux_chain {fuel : ℕ} {start stop step : ℤ} (hs : 1 ≤ step) :
    List.Chain' (fun a b => a < b) (rangeAux fuel start stop step) := by
  induction fuel generalizing start with
  | zero => simp [rangeAux]
  | succ f ih =>
    simp only [rangeAux]
    by_cases h : start < stop
    · rw [if_pos h]
      refine List.chain'_cons'.mpr ⟨?_, ih⟩
      intro b hb
      have hmem := List.mem_of_mem_head? hb
      have hle := (rangeAux_mem (by omega) hmem).1
      omega
    · rw [if_neg h]
      exact List.chain'_nil

theorem rangeAux_length_pos {f : ℕ} {start stop step : ℤ} (h : start < stop) :
    (rangeAux (f + 1) start stop step).length ≠ 0 := by
  rw [rangeAux, if_pos h]
  simp

/-! ### Helper lemmas about the emitted primitives -/

theorem isFrame_of_map {F : ℤ → Primitive}
    (hF1 : ∀ k, Primitive.isFrame (F k) = true)
    (hF2 : ∀ k, Primitive.frameIdx (F k) = k) (ks : List ℤ) :
    animIndices (ks.map F) = ks := by
  induction ks with
  | nil => rfl
  | cons a l ih =>
    simp only [animIndices, List.map_cons, List.filter_cons, hF1 a, if_pos,
      List.map_cons, hF2 a] at ih ⊢
    rw [ih]

theorem isFrame_trajectory (ps : List (ℚ × ℚ × ℚ)) :
    Primitive.isFrame (Primitive.trajectory ps) = false := rfl

theorem isFrame_singularity : Primitive.isFrame Primitive.singularity = false := rfl

theorem isFrame_sphere (n : String) (ps : List (ℚ × ℚ × ℚ)) :
    Primitive.isFrame (Primitive.sphere n ps) = false := rfl

/-- The success path of `_add_rerun_animation_frames`, as one equation: with
a stored dataframe, a positive step, a nonzero `tau.max()` and a positive
(post-clamp) `frame_step_size`, the method returns the clamp warning (when
clamping fired) and one frame per index of `range(1, N, frame_step_size)`. -/
theorem add_rerun_eq (d : SpaceTimeData) (rows : List Row) (step : ℚ)
    (hdf : d.df = some rows) (hstep : 0 < step) (htau : tauMax rows ≠ 0)
    (hspos : 0 < (if frame_step_size_raw rows step > d.max_num_anim_frames
        then d.max_num_anim_frames else frame_step_size_raw rows step)) :
    d.add_rerun_animation_frames step = Except.ok
      ((if frame_step_size_raw rows step > d.max_num_anim_frames
          then ["animation_step_size is too large. Maximum number of animation frames will be limited."]
          else []),
        (rangeAux ((rows.length : ℤ) - 1).toNat 1 (rows.length : ℤ)
          (if frame_step_size_raw rows step > d.max_num_anim_frames
            then d.max_num_anim_frames else frame_step_size_raw rows step)).map
          (mkFrame rows)) := by
  simp only [SpaceTimeData.add_rerun_animation_frames, hdf, if_neg (not_le.mpr hstep),
    if_neg htau, pyRange, if_neg (ne_of_gt hspos), if_pos hspos]

/-- `getD` of a mapped list at an in-range index. -/
theorem getD_map {α β : Type} (f : α → β) (l : List α) (j : ℕ) (da : α) (db : β)
    (hj : j < l.length) : (l.map f).getD j db = f (l.getD j da) := by
  induction l generalizing j with
  | nil => simp at hj
  | cons a l ih =>
    match j with
    | 0 => rfl
    | Nat.succ i =>
      simp only [List.length_cons] at hj
      simp only [List.map_cons, List.getD_cons_succ]
      exact ih i (Nat.lt_of_succ_lt_succ hj)

/-! ### Claim theorems -/

/-- C1: the claim says an all-zero or zero-row (N,5) input yields an
empty-state dataset for which `size()` returns 0 and `plot` still emits the
singularity marker and optional attractor sphere.  On the code,
construction indeed succeeds without storing tabular data, but `self.df` is
then never assigned, so both `size()` (line 52) and `plot()` (line 64)
raise `AttributeError` before emitting anything.  This theorem evaluates
the code at the failing input `np.zeros((2,5))`. -/
theorem C1_empty_state_attribute_crash :
    Except.map (fun d => (d.df, d.size, d.plot S0 1 1))
      (SpaceTimeData.init S0 (PyObject.ndarray c1_trajectory) 1
        CoordinateConversion.spherical_to_cartesian)
    = Except.ok (none,
        Except.error "AttributeError: SpaceTimeData object has no attribute df",
        Except.error "AttributeError: SpaceTimeData object has no attribute df") := by
  decide

set_option maxRecDepth 10000 in
/-- C2: the claim says the total number of emitted animation frames never
exceeds `max_num_anim_frames` (= 100), with the computed step clamped when
it exceeds that bound.  The code clamps the index *step*, which does not
bound the frame *count*: for the 102-sample dataset `c2_trajectory`
(`tau.max() = 1`) and `animation_step_size = 1/102`, `frame_step_size`
computes to 1 — below the bound, so no clamp and no warning — and 101
frames are emitted, exceeding the bound of 100. -/
theorem C2_frame_cap_not_enforced :
    Except.map (fun d =>
        (d.max_num_anim_frames,
          Except.map (fun wf => (wf.1.length, countAnimFrames wf.2))
            (d.add_rerun_animation_frames (1 / 102))))
      (SpaceTimeData.init S0 (PyObject.ndarray c2_trajectory) 1
        CoordinateConversion.spherical_to_cartesian)
    = Except.ok (100, Except.ok (0, 101)) := by
  decide

/-- C3: the claim says a non-empty dataset whose τ column is identically 0
must not fault under a positive `animation_step_size` and must yield zero
frames.  On the code, `anim_step_size / tau.max()` is an IEEE `inf` and
`math.ceil(inf)` raises `OverflowError` (line 145): sampling faults instead
of emitting zero frames.  This theorem evaluates the code at the failing
input `c3_trajectory` with step 1. -/
theorem C3_degenerate_tau_overflow :
    Except.map (fun d => d.add_rerun_animation_frames 1)
      (SpaceTimeData.init S0 (PyObject.ndarray c3_trajectory) 1
        CoordinateConversion.spherical_to_cartesian)
    = Except.ok (Except.error "OverflowError: cannot convert float infinity to integer") := by
  decide

/-- C6: construction fails with the shape error for every array input
containing a row whose length differs from 5 — in particular every (N,4) or
(N,6) array with N ≥ 1 — and fails with the type error for every
non-ndarray input; both errors surface to the caller at construction time
(the `Except` value is the raised `ValueError`), never silently recovered. -/
theorem C6_validation_errors (S : Trig) (rows : List (List ℚ)) (rs : ℚ)
    (conv : CoordinateConversion) (hbad : ∃ r ∈ rows, r.length ≠ 5) :
    SpaceTimeData.init S (PyObject.ndarray rows) rs conv
        = Except.error InitError.invalidShape ∧
      SpaceTimeData.init S PyObject.other rs conv
        = Except.error InitError.invalidType := by
  constructor
  · have hfalse : ¬ (shape_ok rows = true) := by
      simp only [shape_ok, List.all_eq_true, decide_eq_true_eq]
      intro hall
      obtain ⟨r, hr, hne⟩ := hbad
      exact hne (hall r hr)
    simp only [SpaceTimeData.init, if_neg hfalse]
  · rfl

/-- C6 witness: a concrete (2,4) array fails with the shape error, and a
non-array input fails with the type error. -/
theorem C6_validation_errors_witness :
    (∃ r ∈ [[(1 : ℚ), 2, 3, 4], [5, 6, 7, 8]], r.length ≠ 5) ∧
    (SpaceTimeData.init S0 (PyObject.ndarray [[(1 : ℚ), 2, 3, 4], [5, 6, 7, 8]]) 1
        CoordinateConversion.spherical_to_cartesian = Except.error InitError.invalidShape ∧
      SpaceTimeData.init S0 PyObject.other 1 CoordinateConversion.spherical_to_cartesian
        = Except.error InitError.invalidType) :=
  ⟨by decide, C6_validation_errors S0 [[(1 : ℚ), 2, 3, 4], [5, 6, 7, 8]] 1
    CoordinateConversion.spherical_to_cartesian (by decide)⟩

/-- C8: with `animation_step_size ≤ 0` the animation feature is disabled:
the sampler returns immediately — before any frame-selection computation —
with no warnings and no frames, and `plot` succeeds and emits zero
animation-frame primitives. -/
theorem C8_nonpositive_step_disables_animation (d : SpaceTimeData) (S : Trig)
    (rows : List Row) (ar step : ℚ) (hdf : d.df = some rows) (hstep : step ≤ 0) :
    d.add_rerun_animation_frames step = Except.ok ([], []) ∧
    ∃ ps, d.plot S ar step = Except.ok ps ∧ countAnimFrames ps = 0 := by
  constructor
  · simp only [SpaceTimeData.add_rerun_animation_frames, if_pos hstep]
  · by_cases har : 0 < ar
    · refine ⟨[Primitive.trajectory (rows.map (fun r => (r.x, r.y, r.z))),
          Primitive.singularity,
          Primitive.sphere "black_hole" (log_sphere_points S d.rs)] ++
          [Primitive.sphere "attractor" (log_sphere_points S ar)], ?_, ?_⟩
      · simp only [SpaceTimeData.plot, hdf, if_pos har, if_neg (not_lt.mpr hstep)]
      · simp [countAnimFrames, List.filter_append, List.filter_cons,
          isFrame_trajectory, isFrame_singularity, isFrame_sphere]
    · refine ⟨[Primitive.trajectory (rows.map (fun r => (r.x, r.y, r.z))),
          Primitive.singularity,
          Primitive.sphere "black_hole" (log_sphere_points S d.rs)], ?_, ?_⟩
      · simp only [SpaceTimeData.plot, hdf, if_neg har, if_neg (not_lt.mpr hstep)]
      · simp [countAnimFrames, List.filter_cons,
          isFrame_trajectory, isFrame_singularity, isFrame_sphere]

/-- C8 witness: instantiated on the 3-row dataset `c4d` with
`attractor_radius = 1` and `animation_step_size = 0`. -/
theorem C8_witness :
    (c4d.df = some c4rows ∧ (0 : ℚ) ≤ 0) ∧
    (c4d.add_rerun_animation_frames 0 = Except.ok ([], []) ∧
      ∃ ps, c4d.plot S0 1 0 = Except.ok ps ∧ countAnimFrames ps = 0) :=
  ⟨⟨rfl, le_refl 0⟩,
    C8_nonpositive_step_disables_animation c4d S0 c4rows 1 0 rfl (le_refl 0)⟩

/-- C9: for every not-entirely-zero, well-shaped input under the default
spherical-to-Cartesian policy, construction succeeds and the stored
dataframe holds, row for row, τ and t unchanged from the input and the
spatial slots replaced in place by `x = r·sin(θ)·cos(φ)`,
`y = r·sin(θ)·sin(φ)`, `z = r·cos(θ)` of that row's original (r, θ, φ);
the original spherical values are no longer present (converter
spec-modelled from spec section 4.1). -/
theorem C9_in_place_conversion (S : Trig) (rows : List (List ℚ)) (rs : ℚ)
    (hshape : shape_ok rows = true) (hnz : any_nonzero rows = true) :
    ∃ d, SpaceTimeData.init S (PyObject.ndarray rows) rs
        CoordinateConversion.spherical_to_cartesian = Except.ok d ∧
      ∃ rows2, d.df = some rows2 ∧ rows2.length = rows.length ∧
        ∀ j, j < rows.length →
          (rows2.getD j ⟨0, 0, 0, 0, 0⟩).tau = (rows.getD j []).getD 0 0 ∧
          (rows2.getD j ⟨0, 0, 0, 0, 0⟩).t = (rows.getD j []).getD 1 0 ∧
          (rows2.getD j ⟨0, 0, 0, 0, 0⟩).x
            = (rows.getD j []).getD 2 0 * S.sin ((rows.getD j []).getD 3 0)
                * S.cos ((rows.getD j []).getD 4 0) ∧
          (rows2.getD j ⟨0, 0, 0, 0, 0⟩).y
            = (rows.getD j []).getD 2 0 * S.sin ((rows.getD j []).getD 3 0)
                * S.sin ((rows.getD j []).getD 4 0) ∧
          (rows2.getD j ⟨0, 0, 0, 0, 0⟩).z
            = (rows.getD j []).getD 2 0 * S.cos ((rows.getD j []).getD 3 0) := by
  refine ⟨⟨rs, 100, some (rows.map (fun l => convert_point S (toRow l)))⟩, ?_, ?_⟩
  · simp only [SpaceTimeData.init, if_pos hshape, if_pos hnz]
  · refine ⟨rows.map (fun l => convert_point S (toRow l)), rfl, List.length_map rows _, ?_⟩
    intro j hj
    have hgd : (rows.map (fun l => convert_point S (toRow l))).getD j ⟨0, 0, 0, 0, 0⟩
        = convert_point S (toRow (rows.getD j [])) :=
      getD_map (fun l => convert_point S (toRow l)) rows j [] ⟨0, 0, 0, 0, 0⟩ hj
    rw [hgd]
    exact ⟨rfl, rfl, rfl, rfl, rfl⟩

/-- A not-entirely-zero (1,5) input used to instantiate C9. -/
def c9rows : List (List ℚ) := [[1, 2, 3, 4, 5]]

/-- C9 witness: instantiated on the concrete input `c9rows` with the
concrete trig model `S0`. -/
theorem C9_witness :
    (shape_ok c9rows = true ∧ any_nonzero c9rows = true) ∧
    (∃ d, SpaceTimeData.init S0 (PyObject.ndarray c9rows) 1
        CoordinateConversion.spherical_to_cartesian = Except.ok d ∧
      ∃ rows2, d.df = some rows2 ∧ rows2.length = c9rows.length ∧
        ∀ j, j < c9rows.length →
          (rows2.getD j ⟨0, 0, 0, 0, 0⟩).tau = (c9rows.getD j []).getD 0 0 ∧
          (rows2.getD j ⟨0, 0, 0, 0, 0⟩).t = (c9rows.getD j []).getD 1 0 ∧
          (rows2.getD j ⟨0, 0, 0, 0, 0⟩).x
            = (c9rows.getD j []).getD 2 0 * S0.sin ((c9rows.getD j []).getD 3 0)
                * S0.cos ((c9rows.getD j []).getD 4 0) ∧
          (rows2.getD j ⟨0, 0, 0, 0, 0⟩).y
            = (c9rows.getD j []).getD 2 0 * S0.sin ((c9rows.getD j []).getD 3 0)
                * S0.sin ((c9rows.getD j []).getD 4 0) ∧
          (rows2.getD j ⟨0, 0, 0, 0, 0⟩).z
            = (c9rows.getD j []).getD 2 0 * S0.cos ((c9rows.getD j []).getD 3 0)) :=
  ⟨⟨by decide, by decide⟩,
    C9_in_place_conversion S0 c9rows 1 (by decide) (by decide)⟩

/-- C5: every animation-frame primitive emitted by the sampler for the
sample at index k carries `timeDilation = t_k/τ_k` when `τ_k ≠ 0` and
exactly 0 when `τ_k = 0` (the division is guarded, so no division fault),
and `Δt = |t_k − τ_k|`. -/
theorem C5_derived_quantities (d : SpaceTimeData) (rows : List Row) (step : ℚ)
    (w : List String) (fs : List Primitive) (hdf : d.df = some rows)
    (hadd : d.add_rerun_animation_frames step = Except.ok (w, fs)) :
    ∀ p ∈ fs, ∃ k : ℤ, ∃ r : Row, r = rows.getD k.toNat ⟨0, 0, 0, 0, 0⟩ ∧
      p = Primitive.frame k r.tau r.t (r.x, r.y, r.z)
            (if r.tau ≠ 0 then r.t / r.tau else 0) |r.t - r.tau| := by
  simp only [SpaceTimeData.add_rerun_animation_frames, hdf] at hadd
  by_cases h0 : step ≤ 0
  · rw [if_pos h0] at hadd
    simp only [Except.ok.injEq, Prod.mk.injEq] at hadd
    obtain ⟨-, h2⟩ := hadd
    subst h2
    intro p hp
    simp at hp
  · rw [if_neg h0] at hadd
    by_cases hτ : tauMax rows = 0
    · rw [if_pos hτ] at hadd
      simp at hadd
    · rw [if_neg hτ] at hadd
      split at hadd
      · simp at hadd
      · simp only [Except.ok.injEq, Prod.mk.injEq] at hadd
        obtain ⟨-, h2⟩ := hadd
        subst h2
        intro p hp
        obtain ⟨k, hk, rfl⟩ := List.mem_map.mp hp
        exact ⟨k, rows.getD k.toNat ⟨0, 0, 0, 0, 0⟩, rfl, rfl⟩

/-- C5 witness: on the dataset `c5d` with step 1, the single emitted frame
samples row 1, whose `τ = 0`, and carries dilation exactly 0. -/
theorem C5_witness :
    (c5d.df = some c5rows ∧
      c5d.add_rerun_animation_frames 1
        = Except.ok ([], [Primitive.frame 1 0 5 (2, 0, 0) 0 5])) ∧
    (∀ p ∈ [Primitive.frame 1 0 5 ((2 : ℚ), (0 : ℚ), (0 : ℚ)) 0 5],
      ∃ k : ℤ, ∃ r : Row, r = c5rows.getD k.toNat ⟨0, 0, 0, 0, 0⟩ ∧
        p = Primitive.frame k r.tau r.t (r.x, r.y, r.z)
              (if r.tau ≠ 0 then r.t / r.tau else 0) |r.t - r.tau|) :=
  ⟨⟨rfl, by decide⟩,
    C5_derived_quantities c5d c5rows 1 [] [Primitive.frame 1 0 5 (2, 0, 0) 0 5]
      rfl (by decide)⟩

/-- C4: for a dataset with N > 1 samples, positive step size and positive
`tau.max()`, the sampler succeeds and emits exactly the index sequence
`1, 1 + s, 1 + 2·s, …` while the index remains < N, where s ≥ 1 is the
(possibly clamped) `frame_step_size`: positionally the j-th index is
`1 + j·s`, the progression is not truncated before reaching N, it is
nonempty, strictly increasing, and every emitted index lies in [1, N) —
index 0 is never emitted. -/
theorem C4_frame_indices (d : SpaceTimeData) (rows : List Row) (step : ℚ)
    (hdf : d.df = some rows) (hN : 1 < rows.length) (hstep : 0 < step)
    (htau : 0 < tauMax rows) (hmax : 0 < d.max_num_anim_frames) :
    ∃ w fs, d.add_rerun_animation_frames step = Except.ok (w, fs) ∧
      ∃ s : ℤ, s = (if frame_step_size_raw rows step > d.max_num_anim_frames
          then d.max_num_anim_frames else frame_step_size_raw rows step) ∧ 1 ≤ s ∧
        (∀ j, j < (animIndices fs).length →
            (animIndices fs).getD j 0 = 1 + (j : ℤ) * s) ∧
        (rows.length : ℤ) ≤ 1 + ((animIndices fs).length : ℤ) * s ∧
        (animIndices fs).length ≠ 0 ∧
        List.Chain' (fun a b => a < b) (animIndices fs) ∧
        (∀ i ∈ animIndices fs, 1 ≤ i ∧ i < (rows.length : ℤ)) := by
  have hraw : 1 ≤ frame_step_size_raw rows step := by
    have hq : 0 < step / tauMax rows * (rows.length : ℚ) :=
      mul_pos (div_pos hstep htau) (by exact_mod_cast (by omega : 0 < rows.length))
    have hc := Int.ceil_pos.mpr hq
    unfold frame_step_size_raw
    omega
  have hs1 : 1 ≤ (if frame_step_size_raw rows step > d.max_num_anim_frames
      then d.max_num_anim_frames else frame_step_size_raw rows step) := by
    split <;> omega
  have heq := add_rerun_eq d rows step hdf hstep (ne_of_gt htau) (by omega)
  have hidx : animIndices ((rangeAux ((rows.length : ℤ) - 1).toNat 1 (rows.length : ℤ)
      (if frame_step_size_raw rows step > d.max_num_anim_frames
        then d.max_num_anim_frames else frame_step_size_raw rows step)).map (mkFrame rows))
      = rangeAux ((rows.length : ℤ) - 1).toNat 1 (rows.length : ℤ)
          (if frame_step_size_raw rows step > d.max_num_anim_frames
            then d.max_num_anim_frames else frame_step_size_raw rows step) :=
    @isFrame_of_map (mkFrame rows) (fun _ => rfl) (fun _ => rfl) _
  refine ⟨_, _, heq, _, rfl, hs1, ?_, ?_, ?_, ?_, ?_⟩
  · rw [hidx]
    intro j hj
    exact rangeAux_getD hs1 (le_refl _) j hj
  · rw [hidx]
    exact rangeAux_complete hs1 (le_refl _)
  · rw [hidx]
    obtain ⟨f, hf⟩ : ∃ f, ((rows.length : ℤ) - 1).toNat = f + 1 :=
      ⟨((rows.length : ℤ) - 1).toNat - 1, by omega⟩
    rw [hf]
    exact rangeAux_length_pos (by exact_mod_cast hN)
  · rw [hidx]
    exact rangeAux_chain hs1
  · rw [hidx]
    intro i hi
    exact rangeAux_mem (by omega) hi

/-- C4 witness: instantiated on the 3-row dataset `c4d` with step 1
(`tau.max() = 2`, `frame_step_size = 2`, emitted indices `[1]`). -/
theorem C4_witness :
    (c4d.df = some c4rows ∧ 1 < c4rows.length ∧ (0 : ℚ) < 1 ∧
      0 < tauMax c4rows ∧ 0 < c4d.max_num_anim_frames) ∧
    (∃ w fs, c4d.add_rerun_animation_frames 1 = Except.ok (w, fs) ∧
      ∃ s : ℤ, s = (if frame_step_size_raw c4rows 1 > c4d.max_num_anim_frames
          then c4d.max_num_anim_frames else frame_step_size_raw c4rows 1) ∧ 1 ≤ s ∧
        (∀ j, j < (animIndices fs).length →
            (animIndices fs).getD j 0 = 1 + (j : ℤ) * s) ∧
        (c4rows.length : ℤ) ≤ 1 + ((animIndices fs).length : ℤ) * s ∧
        (animIndices fs).length ≠ 0 ∧
        List.Chain' (fun a b => a < b) (animIndices fs) ∧
        (∀ i ∈ animIndices fs, 1 ≤ i ∧ i < (c4rows.length : ℤ))) :=
  ⟨⟨rfl, by decide, by decide, by decide, by decide⟩,
    C4_frame_indices c4d c4rows 1 rfl (by decide) (by decide) (by decide) (by decide)⟩

/-- C7: the index spacing computed by the sampler, before any clamping,
equals `ceil(step_size / τ_max · N)`; when that value does not exceed
`max_num_anim_frames` (so no clamping and no warning occurs), consecutive
emitted indices differ by exactly that amount. -/
theorem C7_step_size_formula (d : SpaceTimeData) (rows : List Row) (step : ℚ)
    (hdf : d.df = some rows) (hN : 0 < rows.length) (hstep : 0 < step)
    (htau : 0 < tauMax rows)
    (hnoclamp : frame_step_size_raw rows step ≤ d.max_num_anim_frames) :
    frame_step_size_raw rows step = ⌈step / tauMax rows * (rows.length : ℚ)⌉ ∧
    ∃ fs, d.add_rerun_animation_frames step = Except.ok ([], fs) ∧
      ∀ j, j + 1 < (animIndices fs).length →
        (animIndices fs).getD (j + 1) 0 - (animIndices fs).getD j 0
          = ⌈step / tauMax rows * (rows.length : ℚ)⌉ := by
  have hraw : 1 ≤ frame_step_size_raw rows step := by
    have hq : 0 < step / tauMax rows * (rows.length : ℚ) :=
      mul_pos (div_pos hstep htau) (by exact_mod_cast hN)
    have hc := Int.ceil_pos.mpr hq
    unfold frame_step_size_raw
    omega
  have hnc : ¬ (frame_step_size_raw rows step > d.max_num_anim_frames) :=
    not_lt.mpr hnoclamp
  have heq := add_rerun_eq d rows step hdf hstep (ne_of_gt htau)
    (by rw [if_neg hnc]; omega)
  rw [if_neg hnc, if_neg hnc] at heq
  refine ⟨rfl, _, heq, ?_⟩
  have hidx : animIndices ((rangeAux ((rows.length : ℤ) - 1).toNat 1 (rows.length : ℤ)
      (frame_step_size_raw rows step)).map (mkFrame rows))
      = rangeAux ((rows.length : ℤ) - 1).toNat 1 (rows.length : ℤ)
          (frame_step_size_raw rows step) :=
    @isFrame_of_map (mkFrame rows) (fun _ => rfl) (fun _ => rfl) _
  rw [hidx]
  intro j hj
  rw [rangeAux_getD hraw (le_refl _) (j + 1) hj,
    rangeAux_getD hraw (le_refl _) j (by omega)]
  have hdef : ⌈step / tauMax rows * (rows.length : ℚ)⌉ = frame_step_size_raw rows step := rfl
  rw [hdef]
  push_cast
  ring

/-- C7 witness: instantiated on the 3-row dataset `c4d` with step 1, where
`ceil(1 / 2 · 3) = 2 ≤ 100`. -/
theorem C7_witness :
    (c4d.df = some c4rows ∧ 0 < c4rows.length ∧ (0 : ℚ) < 1 ∧
      0 < tauMax c4rows ∧ frame_step_size_raw c4rows 1 ≤ c4d.max_num_anim_frames) ∧
    (frame_step_size_raw c4rows 1 = ⌈(1 : ℚ) / tauMax c4rows * (c4rows.length : ℚ)⌉ ∧
      ∃ fs, c4d.add_rerun_animation_frames 1 = Except.ok ([], fs) ∧
        ∀ j, j + 1 < (animIndices fs).length →
          (animIndices fs).getD (j + 1) 0 - (animIndices fs).getD j 0
            = ⌈(1 : ℚ) / tauMax c4rows * (c4rows.length : ℚ)⌉) :=
  ⟨⟨rfl, by decide, by decide, by decide, by decide⟩,
    C7_step_size_formula c4d c4rows 1 rfl (by decide) (by decide) (by decide) (by decide)⟩

set_option maxRecDepth 100000 in
/-- C10: every sphere surface logged by `_log_sphere` is a point cloud of
exactly 256 = 16×16 points; because the meshgrid assignment swaps the two
linspace arrays, the polar angle passed to the converter ranges over
`linspace 0 π 16` (spanning [0, π]) and the azimuthal angle over
`linspace 0 2π 16` (spanning [0, 2π]); under the Pythagorean identity for
the trig model, every emitted point has squared Euclidean distance
`radius²` from the origin, i.e. lies at distance |radius|; and `plot` logs
exactly these point clouds for the `rs` horizon sphere and, when a
positive attractor radius is given, the attractor sphere (converter
spec-modelled from spec section 4.1). -/
theorem C10_sphere_mesh (S : Trig) (radius : ℚ)
    (hPy : ∀ a : ℚ, S.sin a ^ 2 + S.cos a ^ 2 = 1) :
    (log_sphere_points S radius).length = 256 ∧
    (∀ p ∈ log_sphere_points S radius,
        p.1 ^ 2 + p.2.1 ^ 2 + p.2.2 ^ 2 = radius ^ 2) ∧
    (∀ q ∈ sphere_angle_pairs,
        (q.1 ∈ linspace 0 npPi 16 ∧ 0 ≤ q.1 ∧ q.1 ≤ npPi) ∧
        (q.2 ∈ linspace 0 (2 * npPi) 16 ∧ 0 ≤ q.2 ∧ q.2 ≤ 2 * npPi)) ∧
    (((0 : ℚ), (0 : ℚ)) ∈ sphere_angle_pairs ∧
      (npPi, 2 * npPi) ∈ sphere_angle_pairs) ∧
    (∀ (d : SpaceTimeData) (rows : List Row) (ar : ℚ), d.df = some rows → 0 < ar →
        ∃ ps, d.plot S ar 0 = Except.ok ps ∧
          Primitive.sphere "black_hole" (log_sphere_points S d.rs) ∈ ps ∧
          Primitive.sphere "attractor" (log_sphere_points S ar) ∈ ps) := by
  refine ⟨?_, ?_, by decide, by decide, ?_⟩
  · simp only [log_sphere_points, List.length_map]
    decide
  · intro p hp
    simp only [log_sphere_points] at hp
    obtain ⟨q, hq, rfl⟩ := List.mem_map.mp hp
    simp only [spherical_to_cartesian]
    linear_combination (radius ^ 2 * S.sin q.1 ^ 2) * hPy q.2 + radius ^ 2 * hPy q.1
  · intro d rows ar hdf har
    refine ⟨[Primitive.trajectory (rows.map (fun r => (r.x, r.y, r.z))),
        Primitive.singularity,
        Primitive.sphere "black_hole" (log_sphere_points S d.rs)] ++
        [Primitive.sphere "attractor" (log_sphere_points S ar)], ?_, ?_, ?_⟩
    · simp only [SpaceTimeData.plot, hdf, if_pos har, if_neg (lt_irrefl (0 : ℚ))]
    · simp
    · simp

/-- C10 witness: the concrete trig model `S0` satisfies the Pythagorean
identity, and the horizon point cloud for radius 2 has exactly 256 points. -/
theorem C10_witness :
    (∀ a : ℚ, S0.sin a ^ 2 + S0.cos a ^ 2 = 1) ∧
    (log_sphere_points S0 2).length = 256 :=
  ⟨fun _ => by simp [S0], (C10_sphere_mesh S0 2 (fun _ => by simp [S0])).1⟩

end Gros
